import Mathlib

/-!
Verification development for the cell-line screening simulator
(`src/cell_line_screening.py`).

The Python source is shallowly embedded:

* floating point arithmetic is modelled over `ℚ` whenever the source only
  adds, multiplies, divides, clamps or compares, and over `ℝ` where the
  source calls `np.exp`;
* `None`-able observation fields (`day3_density`, `day7_density`,
  `day7_viability`, `day7_titer`) become `Option`;
* random draws (`random.gauss`, `random.choice`, `random.uniform`) are made
  explicit parameters: a clone constructor takes the raw draws, the antibody
  production function takes its single multiplicative noise draw;
* `print`/pandas display glue is out of scope; the result-table rows keep
  exactly the nine fields the source places into its `results` dict;
* the Python methods contain no `raise` statement and no input validation,
  so their embeddings are total functions; `Except`-typed wrappers are
  provided where the specification speaks about error behaviour, and they
  always return `.ok` because the source has no failure path.
-/

/-- `round(x, 3)` of the source: rounding to three decimal places, modelled
with Mathlib's `round` on `ℚ`. -/
def round3 (q : ℚ) : ℚ := (round (q * 1000) : ℤ) / 1000

/-- `round(x, 2)` of the source, used for displayed titers. -/
def round2 (q : ℚ) : ℚ := (round (q * 100) : ℤ) / 100

/-- `round(x, 1)` of the source, used for displayed viability. -/
def round1 (q : ℚ) : ℚ := (round (q * 10) : ℤ) / 10

/-- `round(x, 2)` on a real argument (the density column divides by `1e6`
before rounding). -/
noncomputable def round2R (x : ℝ) : ℝ := (round (x * 100) : ℤ) / 100

/-- The glycosylation pattern drawn in `CellLineClone.__init__`
(`random.choice(['Optimal', 'Optimal', 'Good', 'Poor'])`). -/
inductive GlycosylationPattern
  | Optimal
  | Good
  | Poor
deriving DecidableEq, Repr

/-- The clone record of `CellLineClone.__init__` (src lines 10-34):
identity, intrinsic parameters (clamped at creation), and the initially
absent time-series observations. `viability` is the baseline viability
(the spec calls it `baseline_viability`). -/
structure CellLineClone where
  id : String
  parent : String
  base_titer : ℚ
  growth_rate : ℚ
  viability : ℚ
  stability : Bool
  glycosylation_pattern : GlycosylationPattern
  aggregation_level : ℚ
  day0_density : ℚ
  day3_density : Option ℝ
  day7_density : Option ℝ
  day7_viability : Option ℚ
  day7_titer : Option ℚ

/-- The raw random draws consumed by `CellLineClone.__init__`, before any
clamping is applied.  `aggregation_level` comes from
`random.uniform(0.5, 8.0)`, whose support is `[0.5, 8.0]`. -/
structure RawDraws where
  base_titer : ℚ
  growth_rate : ℚ
  viability : ℚ
  stability : Bool
  glycosylation_pattern : GlycosylationPattern
  aggregation_level : ℚ

/-- `CellLineClone.__init__` (src lines 10-34): stores the draws, applies
the three clamps of lines 25-27, fixes `day0_density = 0.5e6` and leaves
every later observation absent. -/
def CellLineClone.init (clone_id : String) (d : RawDraws) : CellLineClone where
  id := clone_id
  parent := "CHO-K1"
  base_titer := max 0.1 (min 6.0 d.base_titer)
  growth_rate := max 0.015 (min 0.050 d.growth_rate)
  viability := max 60 (min 99 d.viability)
  stability := d.stability
  glycosylation_pattern := d.glycosylation_pattern
  aggregation_level := d.aggregation_level
  day0_density := 0.5e6
  day3_density := none
  day7_density := none
  day7_viability := none
  day7_titer := none

/-- Density component of `CellLineClone.grow` (src lines 36-43):
`min(day0_density * exp(growth_rate * days * 24), 8e6)`. -/
noncomputable def CellLineClone.growDensity (c : CellLineClone) (days : ℚ) : ℝ :=
  min ((c.day0_density : ℝ) * Real.exp ((c.growth_rate : ℝ) * ((days : ℝ) * 24))) 8e6

/-- Viability component of `CellLineClone.grow` (src lines 46-47):
`max(60, viability - days * 0.5)`. -/
def CellLineClone.growViability (c : CellLineClone) (days : ℚ) : ℚ :=
  max 60 (c.viability - days * 0.5)

/-- `CellLineClone.grow` (src lines 36-49): a pure function of the clone's
intrinsic parameters and the elapsed days; it draws no randomness and does
not mutate the clone (the callers store the results). -/
noncomputable def CellLineClone.grow (c : CellLineClone) (days : ℚ) : ℝ × ℚ :=
  (c.growDensity days, c.growViability days)

/-- `CellLineClone.produce_antibody` (src lines 51-65) with the single
`random.gauss(1.0, 0.1)` draw made an explicit `noiseDraw` argument.  The
unused local `qP = base_titer * 10` of line 57 is dead code and omitted.
Only the viability component of `grow` feeds the titer. -/
def CellLineClone.produce_antibody (c : CellLineClone) (days : ℚ)
    (noiseDraw : ℚ) : ℚ :=
  let viability := c.growViability days
  let titer := c.base_titer * days / 7 * (viability / 100)
  max 0.1 (titer * noiseDraw)

/-- `CellLineClone.score` (src lines 67-86).  The Python conditionals
`... if self.day7_titer else 0` test *truthiness*: both `None` and an exact
zero value fall into the `else 0` branch; the embedding keeps that
distinction. -/
def CellLineClone.score (c : CellLineClone) : ℚ :=
  let titer_score : ℚ :=
    match c.day7_titer with
    | none => 0
    | some t => if t = 0 then 0 else min 1 (t / 5)
  let viability_score : ℚ :=
    match c.day7_viability with
    | none => 0
    | some v => if v = 0 then 0 else v / 100
  let growth_score : ℚ := min 1 (c.growth_rate / 0.045)
  let stability_bonus : ℚ := if c.stability then 0.2 else 0
  let quality_bonus : ℚ :=
    if c.glycosylation_pattern = GlycosylationPattern.Optimal then 0.15 else 0
  let quality_penalty : ℚ := if c.aggregation_level > 5.0 then -0.1 else 0
  round3 (titer_score * 0.40 + viability_score * 0.25 + growth_score * 0.10 +
    stability_bonus + quality_bonus + quality_penalty)

/-- The scoring formula exactly as the specification words it (claim C1):
`round(0.40*t + 0.25*v + 0.10*g + s + q + p, 3)` with absent Day-7
observations contributing zero, and a strict `> 5.0` aggregation test. -/
def scoreSpec (c : CellLineClone) : ℚ :=
  let t : ℚ := match c.day7_titer with | none => 0 | some x => min 1 (x / 5)
  let v : ℚ := match c.day7_viability with | none => 0 | some x => x / 100
  let g : ℚ := min 1 (c.growth_rate / 0.045)
  let s : ℚ := if c.stability then 0.20 else 0
  let q : ℚ :=
    if c.glycosylation_pattern = GlycosylationPattern.Optimal then 0.15 else 0
  let p : ℚ := if 5.0 < c.aggregation_level then -0.10 else 0
  round3 (0.40 * t + 0.25 * v + 0.10 * g + s + q + p)

/-- C1: `score` returns the rounded weighted sum of the specification, with
absent Day-7 terms treated as zero, no aggregation penalty at exactly 5.0,
and no clamping of the total.  (The truthiness quirk — a stored value of
exactly `0` also selects the zero branch — is invisible here because a zero
titer or viability contributes a zero term either way.) -/
theorem C1_score_formula (c : CellLineClone) : c.score = scoreSpec c := by
  unfold CellLineClone.score scoreSpec
  rcases c.day7_titer with _ | t <;> rcases c.day7_viability with _ | v <;>
    simp only [] <;> congr 1
  · ring
  · by_cases hv : v = 0 <;> simp [hv] <;> ring
  · by_cases ht : t = 0 <;> simp [ht] <;> ring
  · by_cases ht : t = 0 <;> by_cases hv : v = 0 <;> simp [ht, hv] <;> ring

/-- C2: `grow` deterministically returns exactly the pair of the
specification: exponentially growing density capped at `8e6`, and linearly
decaying viability floored at `60`.  Purity (no randomness consumed, the
clone unchanged) is structural: `grow` is a function of the clone value and
`days` alone. -/
theorem C2_grow_formula (c : CellLineClone) (days : ℚ) :
    c.grow days =
      (min ((c.day0_density : ℝ) * Real.exp ((c.growth_rate : ℝ) * (days : ℝ) * 24)) 8e6,
        max 60 (c.viability - days * 0.5)) := by
  unfold CellLineClone.grow CellLineClone.growDensity CellLineClone.growViability
  rw [mul_assoc]

/-- C3: `produce_antibody` equals
`max(0.1, (base_titer * days / 7) * (viability / 100) * noise)` where the
viability is the one computed by `grow`, for every noise draw (including
negative ones), and the result is at least `0.1`, hence strictly
positive. -/
theorem C3_produce_antibody_floor (c : CellLineClone) (days noiseDraw : ℚ) :
    c.produce_antibody days noiseDraw =
      max 0.1 (c.base_titer * days / 7 * ((c.grow days).2 / 100) * noiseDraw) ∧
    (0.1 : ℚ) ≤ c.produce_antibody days noiseDraw ∧
    0 < c.produce_antibody days noiseDraw := by
  refine ⟨rfl, le_max_left _ _, ?_⟩
  have h : (0.1 : ℚ) ≤ c.produce_antibody days noiseDraw := le_max_left _ _
  linarith

/-! ### Identifier formatting: `f"Clone_{i+1:03d}"` -/

/-- One decimal digit rendered as a character. -/
def digitChar : ℕ → Char
  | 0 => '0'
  | 1 => '1'
  | 2 => '2'
  | 3 => '3'
  | 4 => '4'
  | 5 => '5'
  | 6 => '6'
  | 7 => '7'
  | 8 => '8'
  | 9 => '9'
  | _ => '!'

/-- Inverse of `digitChar` on decimal digits. -/
def charDigit : Char → ℕ
  | '0' => 0
  | '1' => 1
  | '2' => 2
  | '3' => 3
  | '4' => 4
  | '5' => 5
  | '6' => 6
  | '7' => 7
  | '8' => 8
  | '9' => 9
  | _ => 10

/-- Decimal digit characters of `n`, most significant first. -/
def decimalChars (n : ℕ) : List Char := ((Nat.digits 10 n).map digitChar).reverse

/-- Python `f"{n:03d}"`: the decimal rendering of `n`, zero-padded on the
left to a width of at least three. -/
def pad3 (n : ℕ) : List Char :=
  List.replicate (3 - (decimalChars n).length) '0' ++ decimalChars n

/-- The identifier `f"Clone_{i+1:03d}"`, from the zero-based creation
index `i` (src line 95). -/
def cloneIdOf (i : ℕ) : String := ⟨"Clone_".data ++ pad3 (i + 1)⟩

/-- Decode a zero-padded decimal rendering back to the number. -/
def unpad3 (l : List Char) : ℕ :=
  Nat.ofDigits 10 (((l.dropWhile fun c => c == '0').map charDigit).reverse)

theorem charDigit_digitChar : ∀ d, d < 10 → charDigit (digitChar d) = d := by decide

theorem digitChar_ne_zero : ∀ d, d < 10 → d ≠ 0 → (digitChar d == '0') = false := by decide

theorem dropZeros_replicate (k : ℕ) (l : List Char) :
    (List.replicate k '0' ++ l).dropWhile (fun c => c == '0') =
      l.dropWhile (fun c => c == '0') := by
  induction k with
  | zero => rfl
  | succ k ih => simp [List.replicate_succ, List.dropWhile_cons, ih]

theorem unpad3_pad3 {n : ℕ} (hn : n ≠ 0) : unpad3 (pad3 n) = n := by
  obtain ⟨l, a, hl⟩ :=
    (Nat.digits 10 n).eq_nil_or_concat.resolve_left
      (Nat.digits_ne_nil_iff_ne_zero.mpr hn)
  rw [List.concat_eq_append] at hl
  have ha10 : a < 10 :=
    Nat.digits_lt_base (by norm_num) (by rw [hl]; exact List.mem_append_right _ (by simp))
  have hl10 : ∀ d ∈ l, d < 10 := fun d hd =>
    Nat.digits_lt_base (by norm_num) (by rw [hl]; exact List.mem_append_left _ hd)
  have ha0 : a ≠ 0 := by
    have h := Nat.getLast_digit_ne_zero 10 hn
    have he : (Nat.digits 10 n).getLast (Nat.digits_ne_nil_iff_ne_zero.mpr hn) = a := by
      rw [List.getLast_eq_iff_getLast?_eq_some, hl]
      simp
    rwa [he] at h
  have hdc : decimalChars n = digitChar a :: (l.map digitChar).reverse := by
    simp [decimalChars, hl]
  unfold unpad3 pad3
  rw [hdc, dropZeros_replicate, List.dropWhile_cons]
  rw [digitChar_ne_zero a ha10 ha0]
  simp only [Bool.false_eq_true, if_false, List.map_cons, List.reverse_cons,
    List.map_reverse, List.reverse_reverse, List.map_map]
  have hmap : (l.map fun x => charDigit (digitChar x)) = l := by
    have hcg : ∀ d ∈ l, charDigit (digitChar d) = id d := fun d hd =>
      charDigit_digitChar d (hl10 d hd)
    rw [List.map_congr_left hcg, List.map_id]
  rw [Function.comp_def, hmap, charDigit_digitChar a ha10, ← hl, Nat.ofDigits_digits]

theorem cloneIdOf_injective : Function.Injective cloneIdOf := by
  intro i j h
  have h2 : "Clone_".data ++ pad3 (i + 1) = "Clone_".data ++ pad3 (j + 1) :=
    congrArg String.data h
  have h3 : pad3 (i + 1) = pad3 (j + 1) := List.append_cancel_left h2
  have h4 := congrArg unpad3 h3
  rw [unpad3_pad3 (Nat.succ_ne_zero i), unpad3_pad3 (Nat.succ_ne_zero j)] at h4
  omega

/-! ### The screening campaign -/

/-- The error taxonomy named by the specification (§7).  The source defines
neither error class and contains no `raise` statement: the `Except`-typed
wrappers below always return `.ok`. -/
inductive ScreeningError
  | InvalidConfiguration
  | SequenceViolation
deriving DecidableEq, Repr

/-- `AutomatedScreening` state (src lines 92-97): the clone count argument,
the descriptive plate format, and the clone collection in creation order.
The `screening_log`/`start_date` fields only feed console narration and the
export filename and are not modelled. -/
structure AutomatedScreening where
  num_clones : ℤ
  plate_format : String
  clones : List CellLineClone

/-- `AutomatedScreening.__init__` (src lines 92-97).  `num_clones` is a
Python `int`; `range(num_clones)` is empty for a non-positive argument, so
the comprehension yields `max(num_clones, 0)` clones.  No validation is
performed.  The per-clone random draws are an explicit stream indexed by
creation order. -/
def AutomatedScreening.init (num_clones : ℤ) (draws : ℕ → RawDraws) :
    AutomatedScreening where
  num_clones := num_clones
  plate_format := "96-well"
  clones :=
    (List.range num_clones.toNat).map fun i =>
      CellLineClone.init (cloneIdOf i) (draws i)

/-- Construction seen through the specification's error model: the source
has no failure path, so construction always returns normally. -/
def AutomatedScreening.initE (num_clones : ℤ) (draws : ℕ → RawDraws) :
    Except ScreeningError AutomatedScreening :=
  .ok (AutomatedScreening.init num_clones draws)

/-- A fixed stream of raw draws (each one inside the support of the
corresponding random distribution), used for concrete evaluations. -/
def defaultDraws : RawDraws where
  base_titer := 2.5
  growth_rate := 0.032
  viability := 94
  stability := true
  glycosylation_pattern := GlycosylationPattern.Optimal
  aggregation_level := 3

def constDraws : ℕ → RawDraws := fun _ => defaultDraws

/-- C5 counterexample: constructing the campaign with `num_clones = 0`
returns normally — an ordinary campaign value with an empty clone list —
instead of failing with `InvalidConfiguration`. -/
theorem C5_counterexample :
    AutomatedScreening.initE 0 constDraws =
      Except.ok (AutomatedScreening.init 0 constDraws) ∧
    (AutomatedScreening.init 0 constDraws).clones = [] :=
  ⟨rfl, rfl⟩

/-- C5 amended: the generator performs no validation at all.  For every
`num_clones` (zero and negative included) construction succeeds and
produces `max(num_clones, 0)` clones; no `InvalidConfiguration` error
exists in the code. -/
theorem C5_amended_no_validation (num_clones : ℤ) (draws : ℕ → RawDraws) :
    AutomatedScreening.initE num_clones draws =
      Except.ok (AutomatedScreening.init num_clones draws) ∧
    (AutomatedScreening.init num_clones draws).clones.length = num_clones.toNat := by
  refine ⟨rfl, ?_⟩
  simp [AutomatedScreening.init]

/-- C9: for every positive `num_clones` the generator yields exactly
`num_clones` clones, whose identifiers are `Clone_001 … Clone_NNN` in
creation order and pairwise distinct, and every generated clone carries
clamped intrinsic parameters, `day0_density = 0.5e6`, and absent later
observations.  The hypothesis on `draws` records the support of
`random.uniform(0.5, 8.0)` (the only unclamped bounded attribute). -/
theorem C9_generator_contract (num_clones : ℤ) (draws : ℕ → RawDraws)
    (hn : 0 < num_clones)
    (hagg : ∀ i, (0.5 : ℚ) ≤ (draws i).aggregation_level ∧
      (draws i).aggregation_level ≤ 8) :
    (((AutomatedScreening.init num_clones draws).clones.length : ℤ) = num_clones) ∧
    (∀ i (h : i < (AutomatedScreening.init num_clones draws).clones.length),
      ((AutomatedScreening.init num_clones draws).clones.get ⟨i, h⟩).id = cloneIdOf i) ∧
    ((AutomatedScreening.init num_clones draws).clones.map CellLineClone.id).Nodup ∧
    (∀ cl ∈ (AutomatedScreening.init num_clones draws).clones,
      ((0.1 : ℚ) ≤ cl.base_titer ∧ cl.base_titer ≤ 6) ∧
      ((0.015 : ℚ) ≤ cl.growth_rate ∧ cl.growth_rate ≤ 0.05) ∧
      ((60 : ℚ) ≤ cl.viability ∧ cl.viability ≤ 99) ∧
      ((0.5 : ℚ) ≤ cl.aggregation_level ∧ cl.aggregation_level ≤ 8) ∧
      cl.day0_density = 0.5e6 ∧
      cl.day3_density = none ∧ cl.day7_density = none ∧
      cl.day7_viability = none ∧ cl.day7_titer = none) := by
  refine ⟨?_, ?_, ?_, ?_⟩
  · simp [AutomatedScreening.init, Int.toNat_of_nonneg hn.le]
  · intro i h
    simp [AutomatedScreening.init, List.get_eq_getElem, CellLineClone.init]
  · have : ((AutomatedScreening.init num_clones draws).clones.map CellLineClone.id) =
        (List.range num_clones.toNat).map cloneIdOf := by
      simp [AutomatedScreening.init, List.map_map]
      exact fun a _ => rfl
    rw [this]
    exact (List.nodup_range _).map cloneIdOf_injective
  · intro cl hcl
    simp only [AutomatedScreening.init, List.mem_map, List.mem_range] at hcl
    obtain ⟨i, _, rfl⟩ := hcl
    refine ⟨⟨le_max_left _ _, max_le (by norm_num) ((min_le_left _ _).trans (by norm_num))⟩,
      ⟨le_max_left _ _, max_le (by norm_num) ((min_le_left _ _).trans (by norm_num))⟩,
      ⟨le_max_left _ _, max_le (by norm_num) ((min_le_left _ _).trans (by norm_num))⟩,
      ⟨(hagg i).1, (hagg i).2⟩, rfl, rfl, rfl, rfl, rfl⟩

/-- Witness for C9 at `num_clones = 2` with the constant draw stream. -/
theorem C9_generator_contract_witness :
    ((0 : ℤ) < 2 ∧
      (∀ i, (0.5 : ℚ) ≤ (constDraws i).aggregation_level ∧
        (constDraws i).aggregation_level ≤ 8)) ∧
    ((((AutomatedScreening.init 2 constDraws).clones.length : ℤ) = 2) ∧
    (∀ i (h : i < (AutomatedScreening.init 2 constDraws).clones.length),
      ((AutomatedScreening.init 2 constDraws).clones.get ⟨i, h⟩).id = cloneIdOf i) ∧
    ((AutomatedScreening.init 2 constDraws).clones.map CellLineClone.id).Nodup ∧
    (∀ cl ∈ (AutomatedScreening.init 2 constDraws).clones,
      ((0.1 : ℚ) ≤ cl.base_titer ∧ cl.base_titer ≤ 6) ∧
      ((0.015 : ℚ) ≤ cl.growth_rate ∧ cl.growth_rate ≤ 0.05) ∧
      ((60 : ℚ) ≤ cl.viability ∧ cl.viability ≤ 99) ∧
      ((0.5 : ℚ) ≤ cl.aggregation_level ∧ cl.aggregation_level ≤ 8) ∧
      cl.day0_density = 0.5e6 ∧
      cl.day3_density = none ∧ cl.day7_density = none ∧
      cl.day7_viability = none ∧ cl.day7_titer = none)) :=
  ⟨⟨by norm_num, fun i => ⟨by norm_num [constDraws, defaultDraws],
      by norm_num [constDraws, defaultDraws]⟩⟩,
    C9_generator_contract 2 constDraws (by norm_num)
      (fun i => ⟨by norm_num [constDraws, defaultDraws],
        by norm_num [constDraws, defaultDraws]⟩)⟩

/-! ### Growth monotonicity and score bounds -/

/-- C8: for a fixed clone whose intrinsic parameters come from the
generator (nonnegative growth rate and starting density — the generator
clamps `growth_rate` into `[0.015, 0.050]` and fixes
`day0_density = 0.5e6`, see `C9_generator_contract`), density is
non-decreasing in `days` and never exceeds `8e6`, while viability is
non-increasing in `days` and never falls below `60`. -/
theorem C8_grow_monotone (c : CellLineClone) (d1 d2 : ℚ)
    (hr : 0 ≤ c.growth_rate) (hd0 : 0 ≤ c.day0_density) (h12 : d1 ≤ d2) :
    (c.grow d1).1 ≤ (c.grow d2).1 ∧
    (c.grow d1).1 ≤ 8e6 ∧
    (c.grow d2).2 ≤ (c.grow d1).2 ∧
    (60 : ℚ) ≤ (c.grow d1).2 := by
  have hrR : (0 : ℝ) ≤ (c.growth_rate : ℚ) := by exact_mod_cast hr
  have hd0R : (0 : ℝ) ≤ (c.day0_density : ℚ) := by exact_mod_cast hd0
  have h12R : ((d1 : ℚ) : ℝ) ≤ ((d2 : ℚ) : ℝ) := by exact_mod_cast h12
  refine ⟨?_, min_le_right _ _, ?_, le_max_left _ _⟩
  · unfold CellLineClone.grow CellLineClone.growDensity
    refine min_le_min (mul_le_mul_of_nonneg_left ?_ hd0R) le_rfl
    exact Real.exp_le_exp.mpr (by nlinarith)
  · unfold CellLineClone.grow CellLineClone.growViability
    exact max_le_max le_rfl (by linarith)

/-- A concrete clone (generator output for `defaultDraws`, with Day-7
observations attached) used for witnesses. -/
def sampleClone : CellLineClone where
  id := "Clone_001"
  parent := "CHO-K1"
  base_titer := 2.5
  growth_rate := 0.032
  viability := 94
  stability := true
  glycosylation_pattern := GlycosylationPattern.Optimal
  aggregation_level := 3
  day0_density := 500000
  day3_density := none
  day7_density := none
  day7_viability := some 90.5
  day7_titer := some 2

/-- Witness for C8 at `sampleClone`, `d1 = 1`, `d2 = 2`. -/
theorem C8_grow_monotone_witness :
    ((0 : ℚ) ≤ sampleClone.growth_rate ∧ (0 : ℚ) ≤ sampleClone.day0_density ∧
      (1 : ℚ) ≤ 2) ∧
    ((sampleClone.grow 1).1 ≤ (sampleClone.grow 2).1 ∧
      (sampleClone.grow 1).1 ≤ 8e6 ∧
      (sampleClone.grow 2).2 ≤ (sampleClone.grow 1).2 ∧
      (60 : ℚ) ≤ (sampleClone.grow 1).2) :=
  ⟨⟨by norm_num [sampleClone], by norm_num [sampleClone], by norm_num⟩,
    C8_grow_monotone sampleClone 1 2 (by norm_num [sampleClone])
      (by norm_num [sampleClone]) (by norm_num)⟩

theorem round3_le_round3 {x y : ℚ} (h : x ≤ y) : round3 x ≤ round3 y := by
  unfold round3
  have hr : round (x * 1000) ≤ round (y * 1000) := by
    rw [round_eq, round_eq]
    exact Int.floor_le_floor (by linarith)
  have hq : ((round (x * 1000) : ℤ) : ℚ) ≤ ((round (y * 1000) : ℤ) : ℚ) := by
    exact_mod_cast hr
  linarith

theorem round3_neg_point_one : round3 (-0.1 : ℚ) = -0.1 := by
  have h : ((-0.1 : ℚ) * 1000) = ((-100 : ℤ) : ℚ) := by norm_num
  unfold round3
  rw [h, round_intCast]
  norm_num

theorem round3_one_point_one : round3 (1.1 : ℚ) = 1.1 := by
  have h : ((1.1 : ℚ) * 1000) = ((1100 : ℤ) : ℚ) := by norm_num
  unfold round3
  rw [h, round_intCast]
  norm_num

/-- C10: for a clone whose intrinsic parameters lie in the generator's
clamp ranges and whose Day-7 observations, when populated, are the
nonnegative titer and percentage viability the harvest writes, the score is
bounded by `[-0.1, 1.1]`: every weighted positive term is individually
bounded and the only negative contribution is the `-0.1` aggregation
penalty. -/
theorem C10_score_bounds (c : CellLineClone)
    (hg : 0 ≤ c.growth_rate)
    (ht : ∀ t ∈ c.day7_titer, 0 ≤ t)
    (hv : ∀ v ∈ c.day7_viability, 0 ≤ v ∧ v ≤ 100) :
    -0.1 ≤ c.score ∧ c.score ≤ 1.1 := by
  unfold CellLineClone.score
  have htt : (0 : ℚ) ≤ (match c.day7_titer with
      | none => (0 : ℚ)
      | some t => if t = 0 then 0 else min 1 (t / 5)) ∧
      (match c.day7_titer with
      | none => (0 : ℚ)
      | some t => if t = 0 then 0 else min 1 (t / 5)) ≤ 1 := by
    rcases hc : c.day7_titer with _ | t
    · norm_num
    · have h0 : (0 : ℚ) ≤ t := ht t (by rw [hc]; rfl)
      by_cases h : t = 0
      · simp [h]
      · simp only [h, if_false]
        exact ⟨le_min (by norm_num) (by positivity), min_le_left _ _⟩
  have hvv : (0 : ℚ) ≤ (match c.day7_viability with
      | none => (0 : ℚ)
      | some v => if v = 0 then 0 else v / 100) ∧
      (match c.day7_viability with
      | none => (0 : ℚ)
      | some v => if v = 0 then 0 else v / 100) ≤ 1 := by
    rcases hc : c.day7_viability with _ | v
    · norm_num
    · have h0 := hv v (by rw [hc]; rfl)
      by_cases h : v = 0
      · simp [h]
      · obtain ⟨h01, h02⟩ := h0
        simp only [h, if_false]
        constructor
        · linarith
        · linarith
  have hgg : (0 : ℚ) ≤ min 1 (c.growth_rate / 0.045) ∧
      min 1 (c.growth_rate / 0.045) ≤ 1 := by
    exact ⟨le_min (by norm_num) (by positivity), min_le_left _ _⟩
  have hss : (0 : ℚ) ≤ (if c.stability then (0.2 : ℚ) else 0) ∧
      (if c.stability then (0.2 : ℚ) else 0) ≤ 0.2 := by
    split <;> norm_num
  have hqq : (0 : ℚ) ≤
      (if c.glycosylation_pattern = GlycosylationPattern.Optimal then (0.15 : ℚ) else 0) ∧
      (if c.glycosylation_pattern = GlycosylationPattern.Optimal then (0.15 : ℚ) else 0) ≤
        0.15 := by
    split <;> norm_num
  have hpp : (-0.1 : ℚ) ≤ (if c.aggregation_level > 5.0 then (-0.1 : ℚ) else 0) ∧
      (if c.aggregation_level > 5.0 then (-0.1 : ℚ) else 0) ≤ 0 := by
    split <;> norm_num
  constructor
  · calc (-0.1 : ℚ) = round3 (-0.1) := round3_neg_point_one.symm
    _ ≤ _ := round3_le_round3 (by nlinarith [htt.1, hvv.1, hgg.1, hss.1, hqq.1, hpp.1])
  · calc _ ≤ round3 (1.1 : ℚ) :=
        round3_le_round3 (by nlinarith [htt.2, hvv.2, hgg.2, hss.2, hqq.2, hpp.2])
    _ = 1.1 := round3_one_point_one

/-- Witness for C10 at `sampleClone`. -/
theorem C10_score_bounds_witness :
    ((0 : ℚ) ≤ sampleClone.growth_rate ∧
      (∀ t ∈ sampleClone.day7_titer, (0 : ℚ) ≤ t) ∧
      (∀ v ∈ sampleClone.day7_viability, (0 : ℚ) ≤ v ∧ v ≤ 100)) ∧
    (-0.1 ≤ sampleClone.score ∧ sampleClone.score ≤ 1.1) :=
  ⟨⟨by norm_num [sampleClone],
    fun t h => by simp [sampleClone] at h; subst h; norm_num,
    fun v h => by simp [sampleClone] at h; subst h; norm_num⟩,
    C10_score_bounds sampleClone (by norm_num [sampleClone])
      (fun t h => by simp [sampleClone] at h; subst h; norm_num)
      (fun v h => by simp [sampleClone] at h; subst h; norm_num)⟩

/-! ### The Day-7 result table and top-n selection -/

/-- `round(x, 4)` of the source, used for the displayed growth rate. -/
def round4 (q : ℚ) : ℚ := (round (q * 10000) : ℤ) / 10000

/-- One row of the Day-7 result table (src lines 190-200): the nine fields
of the `results` dict, with the source's display rounding applied. -/
structure ResultRow where
  clone_id : String
  titer : ℚ
  viability : ℚ
  vcd : ℝ
  growth_rate : ℚ
  stable : String
  glycosylation : GlycosylationPattern
  aggregates : ℚ
  score : ℚ

/-- Descending-score ordering of result rows, the order produced by
`df.nlargest(n, 'Score')`. -/
def scoreGE (a b : ResultRow) : Prop := b.score ≤ a.score

instance : DecidableRel scoreGE :=
  fun a b => inferInstanceAs (Decidable (b.score ≤ a.score))

instance : IsTotal ResultRow scoreGE := ⟨fun a b => le_total b.score a.score⟩

instance : IsTrans ResultRow scoreGE := ⟨fun _ _ _ h1 h2 => le_trans h2 h1⟩

/-- `AutomatedScreening.select_top_clones` (src lines 214-240):
`df.nlargest(n, 'Score')` returns the first `n` rows ordered by descending
score with ties keeping the earlier row first (`keep='first'`), here
modelled as a stable insertion sort followed by `take`.  For `n <= 0`
pandas returns an empty frame, and for `n` beyond the row count the whole
sorted frame; the method performs no validation and mutates neither the
table nor the campaign. -/
def select_top_clones (df : List ResultRow) (n : ℤ) : List ResultRow :=
  (List.insertionSort scoreGE df).take n.toNat

/-- Selection seen through the specification's error model: the source has
no failure path, so selection always returns normally. -/
def select_top_clonesE (df : List ResultRow) (n : ℤ) :
    Except ScreeningError (List ResultRow) :=
  .ok (select_top_clones df n)

theorem filter_orderedInsert_of_eq (s : ℚ) (a : ResultRow) (l : List ResultRow)
    (ha : a.score = s) :
    (l.orderedInsert scoreGE a).filter (fun x => decide (x.score = s)) =
      a :: l.filter (fun x => decide (x.score = s)) := by
  induction l with
  | nil => simp [ha]
  | cons b l ih =>
    rw [List.orderedInsert]
    by_cases h : scoreGE a b
    · rw [if_pos h, List.filter_cons, List.filter_cons]
      simp [ha]
    · have hb : ¬ b.score = s := by
        unfold scoreGE at h
        push_neg at h
        intro hbs
        rw [hbs, ← ha] at h
        exact absurd h (lt_irrefl _)
      rw [if_neg h, List.filter_cons, List.filter_cons]
      simp [hb, ih]

theorem filter_orderedInsert_of_ne (s : ℚ) (a : ResultRow) (l : List ResultRow)
    (ha : ¬ a.score = s) :
    (l.orderedInsert scoreGE a).filter (fun x => decide (x.score = s)) =
      l.filter (fun x => decide (x.score = s)) := by
  induction l with
  | nil => simp [ha]
  | cons b l ih =>
    rw [List.orderedInsert]
    by_cases h : scoreGE a b
    · rw [if_pos h, List.filter_cons]
      simp [ha]
    · rw [if_neg h, List.filter_cons, List.filter_cons]
      rw [ih]

/-- Stability of the sort backing `select_top_clones`: rows of any given
score appear in the sorted table in their original relative order. -/
theorem filter_insertionSort_eq (s : ℚ) (l : List ResultRow) :
    (List.insertionSort scoreGE l).filter (fun x => decide (x.score = s)) =
      l.filter (fun x => decide (x.score = s)) := by
  induction l with
  | nil => rfl
  | cons a l ih =>
    rw [List.insertionSort]
    by_cases h : a.score = s
    · rw [filter_orderedInsert_of_eq s a _ h, ih, List.filter_cons]
      simp [h]
    · rw [filter_orderedInsert_of_ne s a _ h, ih, List.filter_cons]
      simp [h]

/-- C4: selecting the top `n` from a table of `m >= n >= 1` rows returns
exactly `n` rows, ordered by non-increasing score, and for every score
value the selected rows of that score form a prefix of the table's rows of
that score in original order (stable tie-breaking by creation order).
Purity is structural: `select_top_clones` is a function of the table
value. -/
theorem C4_select_top_clones_spec (df : List ResultRow) (n : ℤ)
    (h1 : 1 ≤ n) (h2 : n ≤ (df.length : ℤ)) :
    ((select_top_clones df n).length : ℤ) = n ∧
    List.Sorted scoreGE (select_top_clones df n) ∧
    (∀ s : ℚ, (select_top_clones df n).filter (fun x => decide (x.score = s)) <+:
      df.filter (fun x => decide (x.score = s))) := by
  refine ⟨?_, ?_, ?_⟩
  · unfold select_top_clones
    rw [List.length_take, (List.perm_insertionSort scoreGE df).length_eq]
    have hle : n.toNat ≤ df.length := by omega
    rw [min_eq_left hle]
    omega
  · exact List.Pairwise.sublist (List.take_sublist _ _)
      (List.sorted_insertionSort scoreGE df)
  · intro s
    have h3 := ( List.take_prefix n.toNat (List.insertionSort scoreGE df)).filter
      (fun x => decide (x.score = s))
    rw [filter_insertionSort_eq] at h3
    exact h3

/-- Concrete result rows for witnesses. -/
def rowA : ResultRow where
  clone_id := "Clone_001"
  titer := 2
  viability := 90
  vcd := 0
  growth_rate := 0.03
  stable := "Yes"
  glycosylation := GlycosylationPattern.Optimal
  aggregates := 3
  score := 0.9

def rowB : ResultRow where
  clone_id := "Clone_002"
  titer := 1
  viability := 80
  vcd := 0
  growth_rate := 0.02
  stable := "No"
  glycosylation := GlycosylationPattern.Good
  aggregates := 4
  score := 0.5

/-- Witness for C4 at a two-row table with `n = 1`. -/
theorem C4_select_top_clones_spec_witness :
    ((1 : ℤ) ≤ 1 ∧ (1 : ℤ) ≤ (([rowA, rowB] : List ResultRow).length : ℤ)) ∧
    (((select_top_clones [rowA, rowB] 1).length : ℤ) = 1 ∧
      List.Sorted scoreGE (select_top_clones [rowA, rowB] 1) ∧
      (∀ s : ℚ, (select_top_clones [rowA, rowB] 1).filter
          (fun x => decide (x.score = s)) <+:
        ([rowA, rowB] : List ResultRow).filter (fun x => decide (x.score = s)))) :=
  ⟨⟨by norm_num, by norm_num⟩,
    C4_select_top_clones_spec [rowA, rowB] 1 (by norm_num) (by norm_num)⟩

/-- C6 counterexample: a selection count outside `(0, num_clones]` does not
fail.  With one row, `n = 0` returns an empty table and `n = 2` returns the
whole table; no `InvalidConfiguration` error is raised. -/
theorem C6_counterexample :
    select_top_clonesE [rowA] 0 = Except.ok (select_top_clones [rowA] 0) ∧
    select_top_clones [rowA] 0 = [] ∧
    select_top_clonesE [rowA] 2 = Except.ok (select_top_clones [rowA] 2) ∧
    select_top_clones [rowA] 2 = [rowA] :=
  ⟨rfl, rfl, rfl, rfl⟩

/-- C6 amended: `select_top_clones` performs no validation.  Every call
returns normally; `n <= 0` yields an empty selection and `n` at least the
row count yields the whole table in descending-score order.  The campaign
is untouched (the function reads only the table). -/
theorem C6_amended_no_validation (df : List ResultRow) (n : ℤ) :
    select_top_clonesE df n = Except.ok (select_top_clones df n) ∧
    (n ≤ 0 → select_top_clones df n = []) ∧
    ((df.length : ℤ) ≤ n → select_top_clones df n = List.insertionSort scoreGE df) := by
  refine ⟨rfl, ?_, ?_⟩
  · intro h
    unfold select_top_clones
    rw [Int.toNat_of_nonpos h]
    rfl
  · intro h
    unfold select_top_clones
    apply List.take_of_length_le
    rw [(List.perm_insertionSort scoreGE df).length_eq]
    omega

/-- Witness for C6 amended at `n = 0` and `n = 5` on a one-row table. -/
theorem C6_amended_no_validation_witness :
    ((0 : ℤ) ≤ 0 ∧ select_top_clones [rowA] 0 = []) ∧
    ((([rowA] : List ResultRow).length : ℤ) ≤ 5 ∧
      select_top_clones [rowA] 5 = List.insertionSort scoreGE [rowA]) :=
  ⟨⟨le_refl 0, (C6_amended_no_validation [rowA] 0).2.1 (le_refl 0)⟩,
    ⟨by norm_num, (C6_amended_no_validation [rowA] 5).2.2 (by norm_num)⟩⟩

/-! ### Campaign steps and the absence of sequencing checks -/

/-- `AutomatedScreening.day_3_feed_and_sample` (src lines 130-162): stores
`day3_density` on every clone (the day-3 viability is computed but only
logged, not persisted).  The method performs no precondition check. -/
noncomputable def AutomatedScreening.day_3_feed_and_sample
    (sc : AutomatedScreening) : AutomatedScreening :=
  { sc with
    clones := sc.clones.map fun cl =>
      { cl with day3_density := some (cl.growDensity 3) } }

/-- The per-clone body of the Day-7 loop (src lines 182-200): compute
growth and production, persist the three Day-7 observations on the clone,
and build its result row (whose `Score` field calls `score()` on the
updated clone). -/
noncomputable def harvestClone (cl : CellLineClone) (noiseDraw : ℚ) :
    CellLineClone × ResultRow :=
  let density := cl.growDensity 7
  let viability := cl.growViability 7
  let titer := cl.produce_antibody 7 noiseDraw
  let updated : CellLineClone :=
    { cl with
      day7_density := some density
      day7_viability := some viability
      day7_titer := some titer }
  (updated,
    { clone_id := cl.id
      titer := round2 titer
      viability := round1 viability
      vcd := round2R (density / 1e6)
      growth_rate := round4 cl.growth_rate
      stable := if cl.stability then "Yes" else "No"
      glycosylation := cl.glycosylation_pattern
      aggregates := round1 cl.aggregation_level
      score := updated.score })

/-- The Day-7 loop over the clones in creation order; the clone at index
`i` consumes the noise draw of index `i`. -/
noncomputable def harvestList (noise : ℕ → ℚ) :
    ℕ → List CellLineClone → List (CellLineClone × ResultRow)
  | _, [] => []
  | i, cl :: rest => harvestClone cl (noise i) :: harvestList noise (i + 1) rest

/-- `AutomatedScreening.day_7_harvest_and_analyze` (src lines 164-212):
persists every clone's Day-7 observations and returns the result table.
The source checks no campaign state before running. -/
noncomputable def AutomatedScreening.day_7_harvest_and_analyze
    (sc : AutomatedScreening) (noise : ℕ → ℚ) :
    AutomatedScreening × List ResultRow :=
  let pairs := harvestList noise 0 sc.clones
  ({ sc with clones := pairs.map Prod.fst }, pairs.map Prod.snd)

/-- The Day-7 harvest seen through the specification's error model: the
source has no failure path, so the step always returns normally. -/
noncomputable def AutomatedScreening.day_7_harvest_and_analyzeE
    (sc : AutomatedScreening) (noise : ℕ → ℚ) :
    Except ScreeningError (AutomatedScreening × List ResultRow) :=
  .ok (sc.day_7_harvest_and_analyze noise)

/-- A freshly constructed one-clone campaign: the Day-3 step has not run
(every `day3_density` is still absent). -/
noncomputable def freshCampaign : AutomatedScreening :=
  AutomatedScreening.init 1 constDraws

def unitNoise : ℕ → ℚ := fun _ => 1

theorem harvestList_all_some (noise : ℕ → ℚ) (i : ℕ) (l : List CellLineClone) :
    (((harvestList noise i l).map Prod.fst).all fun cl =>
      cl.day7_density.isSome && cl.day7_viability.isSome && cl.day7_titer.isSome) = true := by
  induction l generalizing i with
  | nil => rfl
  | cons cl rest ih => simp [harvestList, harvestClone, ih]

/-- C7 counterexample: invoking the Day-7 harvest on a freshly created
campaign, before the Day-3 feed has run, does not fail with
`SequenceViolation`: it returns normally and mutates the campaign,
populating the clone's Day-7 titer (previously absent). -/
theorem C7_counterexample :
    freshCampaign.clones.map CellLineClone.day3_density = [none] ∧
    freshCampaign.clones.map CellLineClone.day7_titer = [none] ∧
    freshCampaign.day_7_harvest_and_analyzeE unitNoise =
      Except.ok (freshCampaign.day_7_harvest_and_analyze unitNoise) ∧
    (freshCampaign.day_7_harvest_and_analyze unitNoise).1.clones.map
      (fun cl => cl.day7_titer.isSome) = [true] :=
  ⟨rfl, rfl, rfl, rfl⟩

/-- C7 amended: the source enforces no state machine.  The Day-7 harvest
can be invoked on a campaign in any state (in particular before the Day-3
feed); it always returns normally and populates `day7_density`,
`day7_viability` and `day7_titer` on every clone. -/
theorem C7_amended_no_sequencing (sc : AutomatedScreening) (noise : ℕ → ℚ) :
    sc.day_7_harvest_and_analyzeE noise =
      Except.ok (sc.day_7_harvest_and_analyze noise) ∧
    ((sc.day_7_harvest_and_analyze noise).1.clones.all fun cl =>
      cl.day7_density.isSome && cl.day7_viability.isSome &&
        cl.day7_titer.isSome) = true :=
  ⟨rfl, harvestList_all_some noise 0 sc.clones⟩
